import Mathlib

/-!
Shallow embedding of the WizardCLI command engine (`src/WizardCLI/core.py`).

Python values that can occur as parameter defaults, decoded arguments and
keyword-argument values are modelled by `Value`; Python's `None` is `vnone`,
the boolean singletons `True`/`False` are `vbool`, and the only concrete
argument types exercised by the engine's type decoding in this development
are `int` and `str` (`Ty`).  A parameter annotation (`TypeRef`) is either
absent (`Signature.empty`), a concrete type, or a `typing.Union` whose
`__args__` list is the member list.
-/

namespace WizardCLI

inductive Value where
  | vnone
  | vbool (b : Bool)
  | vint (n : Int)
  | vstr (s : String)
deriving DecidableEq, Repr

inductive Ty where
  | int
  | str
deriving DecidableEq, Repr

inductive TypeRef where
  | untyped
  | concrete (t : Ty)
  | union (ts : List Ty)
deriving DecidableEq, Repr


/-!
Python string primitives, modelled over the character list of a `String`
(ASCII-faithful; the engine only manipulates ASCII command text).
-/

/-- Python `s.startswith(p)`. -/
def pyStartsWith (s p : String) : Bool := p.toList.isPrefixOf s.toList

/-- Python slicing `s[n:]` (by characters). -/
def pyDrop (s : String) (n : Nat) : String := String.mk (s.toList.drop n)

def charLower (c : Char) : Char :=
  if 'A' ≤ c ∧ c ≤ 'Z' then Char.ofNat (c.toNat + 32) else c

/-- Python `s.lower()` (ASCII case mapping). -/
def pyLower (s : String) : String := String.mk (s.toList.map charLower)

/-- Python `s.replace(old, repl)` for a one-character `old`. -/
def pyReplaceChar (s : String) (oldC : Char) (repl : String) : String :=
  String.mk (s.toList.foldr
    (fun c acc => if c = oldC then repl.toList ++ acc else c :: acc) [])

/-- Leading and trailing whitespace removal, as `int()` performs. -/
def trimChars (l : List Char) : List Char :=
  ((l.dropWhile Char.isWhitespace).reverse.dropWhile Char.isWhitespace).reverse

/-- Digit run to a natural number, base 10 (`'0'` has code 48). -/
def digitsToNat (l : List Char) : Nat :=
  l.foldl (fun acc c => acc * 10 + (c.toNat - 48)) 0

/-- Python `int(s)` on a string: strip surrounding whitespace, optional
sign, then a non-empty run of decimal digits; `none` models the
`ValueError` raised on any other input. -/
def pyInt (s : String) : Option Int :=
  let signDigits : Int × List Char :=
    match trimChars s.toList with
    | '-' :: ds => (-1, ds)
    | '+' :: ds => (1, ds)
    | ds => (1, ds)
  if signDigits.2 ≠ [] ∧ signDigits.2.all Char.isDigit then
    some (signDigits.1 * (digitsToNat signDigits.2 : Int))
  else none

/-- Applying a concrete Python type constructor to a raw token string.
`int(v)` fails (`none`) on non-numeric text; `str(v)` always succeeds. -/
def applyTy : Ty → String → Option Value
  | .int, s => (pyInt s).map .vint
  | .str, s => some (.vstr s)

/-- `CLI.__decode` (core.py lines 189-196).  `Signature.empty` passes the
raw value through unchanged; a union (`hasattr(tpe, '__args__')`) enters a
`for` loop whose body is an unconditional `return member(value)`, so only
the FIRST member is ever applied and any exception it raises propagates
(`.error`); a concrete type is applied directly.  A union with an empty
member list would fall through to `tpe(value)`, calling the union object
itself, which raises `TypeError`. -/
def decode (tpe : TypeRef) (value : String) : Except String Value :=
  match tpe with
  | .untyped => .ok (.vstr value)
  | .union [] => .error "TypeError"
  | .union (t :: _) =>
      match applyTy t value with
      | some v => .ok v
      | none => .error "ValueError"
  | .concrete t =>
      match applyTy t value with
      | some v => .ok v
      | none => .error "ValueError"

/-- Modelled from the spec (§3/§9 `TypeRef` decode algorithm), for
comparison with `decode`: try union members in declared order, first
success wins, and on total failure the raw string is passed through. -/
def decodeSpec (tpe : TypeRef) (value : String) : Value :=
  match tpe with
  | .untyped => .vstr value
  | .concrete t => (applyTy t value).getD (.vstr value)
  | .union ts => (ts.findSome? (fun t => applyTy t value)).getD (.vstr value)

/-- One parameter of a Python callable's signature: declared name,
annotation, and `none` when the default is `Signature.empty`. -/
structure PyParam where
  name : String
  annotation : TypeRef
  default : Option Value
deriving DecidableEq, Repr

/-- The classification loop of `CLI.command`'s `wrapper` (core.py lines
113-119): in declaration order, a parameter with no default is appended to
`args` as `("[name]", annotation)`; a parameter whose default `is True`
is appended to `options` as `"-name"`; any other defaulted parameter is
added to `params` under key `"--name"` with its annotation and default. -/
def classifyStep (acc : List (String × TypeRef) × List String × List (String × TypeRef × Value))
    (p : PyParam) : List (String × TypeRef) × List String × List (String × TypeRef × Value) :=
  match p.default with
  | none => (acc.1 ++ [("[" ++ p.name ++ "]", p.annotation)], acc.2.1, acc.2.2)
  | some (.vbool true) => (acc.1, acc.2.1 ++ ["-" ++ p.name], acc.2.2)
  | some d => (acc.1, acc.2.1, acc.2.2 ++ [("--" ++ p.name, p.annotation, d)])

def classify (ps : List PyParam) :
    List (String × TypeRef) × List String × List (String × TypeRef × Value) :=
  ps.foldl classifyStep ([], [], [])

/-- The command `data` dict.  A field is `none` exactly when the
corresponding key is absent from the dict (the wrapper only inserts
`doc`/`args`/`options`/`params`/`alias` when non-empty); reading an absent
key with `cmd["..."]` raises `KeyError`. -/
structure CommandData where
  doc : Option String
  args : Option (List (String × TypeRef))
  options : Option (List String)
  params : Option (List (String × TypeRef × Value))
  aliases : Option (List String)
  info : String
deriving DecidableEq, Repr

/-- Rendering of an annotation after `__info`'s
`str(...).replace("<class '", "").replace("'>", "")`. -/
def tyStr : Ty → String
  | .int => "int"
  | .str => "str"

def typeRefStr : TypeRef → String
  | .untyped => "inspect._empty"
  | .concrete t => tyStr t
  | .union ts => "typing.Union[" ++ String.intercalate ", " (ts.map tyStr) ++ "]"

/-- Python `str(...)` of a default value. -/
def valueStr : Value → String
  | .vnone => "None"
  | .vbool true => "True"
  | .vbool false => "False"
  | .vint n => toString n
  | .vstr s => s

/-- The usage line accumulated by `CLI.__info` (core.py lines 198-229).
`__info` iterates the `data` dict in insertion order — `function`, `doc`,
`args`, `options`, `params`, `alias` — and appends to `usage`: positional
placeholders from `args`, then `-name` tokens from `options`, then
`--name` keys from `params`; an absent key contributes nothing. -/
def usageOf (name : String) (args : Option (List (String × TypeRef)))
    (options : Option (List String))
    (params : Option (List (String × TypeRef × Value))) : String :=
  let u := "\nUsage: " ++ name
  let u := match args with
    | none => u
    | some l => l.foldl (fun acc j => acc ++ " " ++ j.1) u
  let u := match options with
    | none => u
    | some l => l.foldl (fun acc j => acc ++ " " ++ j) u
  match params with
  | none => u
  | some l => l.foldl (fun acc j => acc ++ " " ++ j.1) u

/-- The descriptive text accumulated by `CLI.__info`, in the same dict
iteration order.  Note the options branch appends, after its loop, one
extra ` j` using the loop variable's final value (the last option). -/
def txtOf (doc : Option String) (args : Option (List (String × TypeRef)))
    (options : Option (List String))
    (params : Option (List (String × TypeRef × Value)))
    (aliases : Option (List String)) : String :=
  let t := match doc with
    | none => ""
    | some d => "\nDocumentation: " ++ d
  let t := match args with
    | none => t
    | some l =>
        l.foldl (fun acc j =>
          acc ++ "\n    " ++ (pyReplaceChar (pyReplaceChar j.1 '[' "") ']' "") ++ ": " ++ typeRefStr j.2)
          (t ++ "\nArgument(s):")
  let t := match options with
    | none => t
    | some l =>
        (l.foldl (fun acc _j => acc) (t ++ "\nOption(s):")) ++
          (match l.getLast? with
           | none => ""
           | some j => " " ++ j)
  let t := match params with
    | none => t
    | some l =>
        l.foldl (fun acc j =>
          let tpe := typeRefStr j.2.1
          let tpe := if tpe = "None" then "" else ": " ++ tpe
          acc ++ "\n    " ++ j.1 ++ tpe ++ " = " ++ valueStr j.2.2)
          (t ++ "\nParameter(s):")
  match aliases with
  | none => t
  | some l => t ++ "\nAlias: " ++ String.intercalate ", " l

/-- `CLI.__info`: returns `txt[1:] + usage`. -/
def mkInfo (name : String) (doc : Option String) (args : Option (List (String × TypeRef)))
    (options : Option (List String))
    (params : Option (List (String × TypeRef × Value)))
    (aliases : Option (List String)) : String :=
  (txtOf doc args options params aliases).drop 1 ++ usageOf name args options params

/-- The body of `CLI.command`'s `wrapper` (core.py lines 107-133), up to
the registry insertion: normalise the name (`replace(" ", "_").lower()`),
classify the parameters, build the `data` dict with only the non-empty
keys present, lower-case the aliases, and attach the info text.  Returns
the canonical name together with the record. -/
def mkData (name : String) (doc : Option String) (aliases : List String)
    (ps : List PyParam) : String × CommandData :=
  let doc := doc.getD ""
  let c := classify ps
  let docF := if doc = "" then none else some doc
  let argsF := if c.1 = [] then none else some c.1
  let optionsF := if c.2.1 = [] then none else some c.2.1
  let paramsF := if c.2.2 = [] then none else some c.2.2
  let aliasF := if aliases = [] then none else some (aliases.map pyLower)
  let n := pyLower (pyReplaceChar name ' ' "_")
  (n, ⟨docF, argsF, optionsF, paramsF, aliasF, mkInfo n docF argsF optionsF paramsF aliasF⟩)

/-- A value slot of the `CLI.__cmd` dict: either a command record
(canonical entry) or a canonical-name string (alias redirect). -/
inductive Entry where
  | record (d : CommandData)
  | aliasOf (n : String)
deriving DecidableEq, Repr

/-- `CLI.__cmd`, modelled as an association list where a later insertion
shadows an earlier binding of the same key (`rLookup` returns the first,
i.e. most recent, match — exactly Python dict assignment semantics for
lookup). -/
def Registry := List (String × Entry)

def rLookup : List (String × Entry) → String → Option Entry
  | [], _ => none
  | (k, e) :: r, s => if k = s then some e else rLookup r s

/-- `CLI.command` registration effect on `CLI.__cmd` (core.py lines
130-133): insert the record under the canonical name, then bind every
lower-cased alias to the canonical name (a duplicate alias key keeps the
last binding, as in the dict comprehension). -/
def register (r : List (String × Entry)) (name : String) (doc : Option String)
    (aliases : List String) (ps : List PyParam) : List (String × Entry) :=
  let nd := mkData name doc aliases ps
  aliases.foldl (fun acc a => (pyLower a, Entry.aliasOf nd.1) :: acc)
    ((nd.1, Entry.record nd.2) :: r)

/-- Outcome of `CLI.run`'s command resolution (core.py lines 281-286):
lower-case the first token and look it up; `notFound` prints the
"doesn't exist" diagnostic; a string value is dereferenced once more —
a missing target raises `KeyError` and a second string would be handed
to `exec`, which immediately raises; both surface as the REPL's generic
error (`err`). -/
inductive ResolveResult where
  | found (d : CommandData)
  | notFound
  | err
deriving DecidableEq, Repr

def resolve (r : List (String × Entry)) (tok : String) : ResolveResult :=
  match rLookup r (pyLower tok) with
  | none => .notFound
  | some (.record d) => .found d
  | some (.aliasOf n) =>
      match rLookup r n with
      | some (.record d) => .found d
      | _ => .err

/-- Python dict assignment `kw[k] = v`: update in place when the key
exists, else append (insertion order preserved). -/
def insertKV (kw : List (String × Value)) (k : String) (v : Value) :
    List (String × Value) :=
  if kw.any (fun p => p.1 = k) then
    kw.map (fun p => if p.1 = k then (k, v) else p)
  else kw ++ [(k, v)]

/-- Python `.get` on the `params` dict. -/
def lookupP : List (String × TypeRef × Value) → String → Option (TypeRef × Value)
  | [], _ => none
  | (k, t, d) :: r, s => if k = s then some (t, d) else lookupP r s

/-- Python `name.strip("[]")`: remove leading and trailing characters
drawn from the set `{'[', ']'}`. -/
def stripBrk (s : String) : String :=
  let isBrk : Char → Bool := fun c => c == '[' || c == ']'
  String.mk (((s.toList.dropWhile isBrk).reverse.dropWhile isBrk).reverse)

/-- Result of `CLI.exec` on one token sequence: the handler is invoked
exactly once with the assembled keyword arguments, or exactly one
diagnostic line is printed and the handler is not invoked (`do = True`),
or an exception escapes `exec` and is rendered by `CLI.run`'s generic
handler (`exn`). -/
inductive ExecOutcome where
  | invoked (kwargs : List (String × Value))
  | printed (msg : String)
  | exn (msg : String)
deriving DecidableEq, Repr

/-- The `while index < len(entry)` loop of `CLI.exec` (core.py lines
240-270), recast as recursion over the not-yet-consumed tokens
`entry[index:]` (the index only ever advances by 1 or 2).

* `--tok`: `cmd["params"]` raises `KeyError` when the key is absent;
  an unknown key prints `Unknown Parameter`; with no following token the
  parameter is set to `None` and, the index now being past the end, the
  loop exits and the handler is invoked; otherwise the following token is
  decoded (an exception propagates) and consumed — unless the decoded
  value is `None`, in which case `index += 1 if ... is not None else 0`
  leaves the value token to be reprocessed.
* `-tok`: if the suffix is a key of the current `kwargs` dict the entry is
  set to `True`; else `-?` prints the stored info text; else
  `Unknown Option`.
* plain token: `cmd["args"]` raises `KeyError` when absent; the next
  unfilled positional slot receives the decoded token; when all slots are
  filled, `Too many arguments provided.`.

Branches on non-structural values are written with `casesOn` so that the
one-step unfolding lemma below is definitional. -/
def execLoop (cmd : CommandData) : List String → Nat → List (String × Value) → ExecOutcome
  | [], _, kwargs => .invoked kwargs
  | arg :: rest, argI, kwargs =>
    if pyStartsWith arg "--" then
      Option.casesOn cmd.params (ExecOutcome.exn "KeyError") (fun ps =>
        Option.casesOn (lookupP ps arg) (ExecOutcome.printed "Unknown Parameter") (fun td =>
          match rest with
          | [] => ExecOutcome.invoked (insertKV kwargs (pyDrop arg 2) .vnone)
          | v :: rest2 =>
            Except.casesOn (decode td.1 v) (fun e => ExecOutcome.exn e) (fun w =>
              if w = Value.vnone then
                execLoop cmd (v :: rest2) argI (insertKV kwargs (pyDrop arg 2) w)
              else
                execLoop cmd rest2 argI (insertKV kwargs (pyDrop arg 2) w))))
    else if pyStartsWith arg "-" then
      if kwargs.any (fun p => p.1 = pyDrop arg 1) then
        execLoop cmd rest argI (insertKV kwargs (pyDrop arg 1) (.vbool true))
      else if arg = "-?" then .printed cmd.info
      else .printed "Unknown Option"
    else
      Option.casesOn cmd.args (ExecOutcome.exn "KeyError") (fun args =>
        if h : argI < args.length then
          Except.casesOn (decode (args.get ⟨argI, h⟩).2 arg) (fun e => ExecOutcome.exn e)
            (fun w =>
              execLoop cmd rest (argI + 1)
                (insertKV kwargs (stripBrk (args.get ⟨argI, h⟩).1) w))
        else ExecOutcome.printed "Too many arguments provided.")

/-- `CLI.exec` (core.py lines 231-272): initialise every flag to `False`
(`if cmd.get("options")` — an absent or empty list contributes nothing),
then run the token loop over `entry[1:]`. -/
def exec (cmd : CommandData) (entry : List String) : ExecOutcome :=
  let kwargs := (cmd.options.getD []).foldl
    (fun kw o => insertKV kw (pyDrop o 1) (.vbool false)) []
  execLoop cmd (entry.drop 1) 0 kwargs

/-!
Concrete fixtures: commands built through the registration pipeline
(`mkData`), exactly as `CLI.command` would build them from a Python
callable with the stated signature.
-/

/-- Signature `(p, flag=True, x: int = None)`: spec
`Positional(p), Flag(flag), Named(x: int)`. -/
def psMixed : List PyParam :=
  [⟨"p", .untyped, none⟩, ⟨"flag", .untyped, some (.vbool true)⟩,
   ⟨"x", .concrete .int, some .vnone⟩]

def cmdMixed : CommandData := (mkData "cmd" none [] psMixed).2

/-- Signature `(a, b=True, c="x")`. -/
def psABC : List PyParam :=
  [⟨"a", .untyped, none⟩, ⟨"b", .untyped, some (.vbool true)⟩,
   ⟨"c", .untyped, some (.vstr "x")⟩]

/-- Signature `(p)`: exactly one positional parameter. -/
def psOnePos : List PyParam := [⟨"p", .untyped, none⟩]

def cmdOnePos : CommandData := (mkData "cmd" none [] psOnePos).2

/-- Signature `(flag=True)`: zero positional parameters, so the `data`
dict has no `args` key at all. -/
def cmdNoPos : CommandData :=
  (mkData "cmd" none [] [⟨"flag", .untyped, some (.vbool true)⟩]).2

/-- Signature `(p, f=True, n=1)`: one positional, one flag, one named. -/
def psPFN : List PyParam :=
  [⟨"p", .untyped, none⟩, ⟨"f", .untyped, some (.vbool true)⟩,
   ⟨"n", .untyped, some (.vint 1)⟩]

def cmdPFN : CommandData := (mkData "c" none [] psPFN).2

/-- Two successive registrations that share the alias `x`. -/
def regShared : List (String × Entry) :=
  register (register [] "a1" none ["x"] psOnePos) "b2" none ["x"] []

/-!
Closed forms for the three classification groups, phrased the way the
spec states the rule: each group selects, in declaration order, the
parameters of its kind.
-/

def posSpecs (ps : List PyParam) : List (String × TypeRef) :=
  (ps.filter fun p => p.default = none).map
    fun p => ("[" ++ p.name ++ "]", p.annotation)

def flagSpecs (ps : List PyParam) : List String :=
  (ps.filter fun p => p.default = some (.vbool true)).map fun p => "-" ++ p.name

def namedSpecs (ps : List PyParam) : List (String × TypeRef × Value) :=
  (ps.filter fun p => p.default ≠ none ∧ p.default ≠ some (.vbool true)).map
    fun p => ("--" ++ p.name, p.annotation, p.default.getD .vnone)

/-- Concatenation of a list of strings. -/
def joinStr (l : List String) : String := l.foldr (fun a b => a ++ b) ""

end WizardCLI

deriving instance DecidableEq for Except

namespace WizardCLI

/-!
Helper lemmas.
-/

theorem insertKV_any_false (kw : List (String × Value)) (k : String) (v : Value)
    (s : String) (hk : k ≠ s) (h : kw.any (fun p => p.1 = s) = false) :
    (insertKV kw k v).any (fun p => p.1 = s) = false := by
  unfold insertKV
  split
  · simp only [List.any_map, List.any_eq_false] at h ⊢
    intro p hp
    by_cases hpk : p.1 = k <;> simp [Function.comp, hpk, hk, h p hp]
  · simp only [List.any_append, Bool.or_eq_false_iff, List.any_eq_false] at h ⊢
    refine ⟨fun p hp => by simpa using h p hp, ?_⟩
    simp [hk]

theorem optInit_any_false (opts : List String) (s : String)
    (h : ∀ o ∈ opts, pyDrop o 1 ≠ s) :
    ∀ kw : List (String × Value), kw.any (fun p => p.1 = s) = false →
      (opts.foldl (fun kw o => insertKV kw (pyDrop o 1) (.vbool false)) kw).any
        (fun p => p.1 = s) = false := by
  induction opts with
  | nil => intro kw hkw; simpa using hkw
  | cons o opts ih =>
    intro kw hkw
    rw [List.foldl_cons]
    exact ih (fun x hx => h x (List.mem_cons_of_mem o hx)) _
      (insertKV_any_false kw (pyDrop o 1) (.vbool false) s
        (h o (List.mem_cons_self o opts)) hkw)

theorem classify_foldl (ps : List PyParam) :
    ∀ acc : List (String × TypeRef) × List String × List (String × TypeRef × Value),
      ps.foldl classifyStep acc =
        (acc.1 ++ posSpecs ps, acc.2.1 ++ flagSpecs ps, acc.2.2 ++ namedSpecs ps) := by
  induction ps with
  | nil => intro acc; simp [posSpecs, flagSpecs, namedSpecs]
  | cons p ps ih =>
    intro acc
    rw [List.foldl_cons, ih]
    rcases h : p.default with _ | v
    · simp [classifyStep, h, posSpecs, flagSpecs, namedSpecs, List.filter_cons]
    · rcases v with _ | b | n | s
      · simp [classifyStep, h, posSpecs, flagSpecs, namedSpecs, List.filter_cons]
      · rcases b with _ | _ <;>
          simp [classifyStep, h, posSpecs, flagSpecs, namedSpecs, List.filter_cons]
      · simp [classifyStep, h, posSpecs, flagSpecs, namedSpecs, List.filter_cons]
      · simp [classifyStep, h, posSpecs, flagSpecs, namedSpecs, List.filter_cons]

theorem foldl_token_join (f : α → String) (l : List α) :
    ∀ u : String, l.foldl (fun acc j => acc ++ " " ++ f j) u =
      u ++ joinStr (l.map (fun j => " " ++ f j)) := by
  induction l with
  | nil => intro u; simp [joinStr]
  | cons x l ih =>
    intro u
    rw [List.foldl_cons, ih]
    simp [joinStr, String.append_assoc]

/-- One step of the `exec` loop on a non-empty token list (the equation
is definitional; stated once so proofs can rewrite with it). -/
theorem execLoop_cons (cmd : CommandData) (arg : String) (rest : List String)
    (argI : Nat) (kwargs : List (String × Value)) :
    execLoop cmd (arg :: rest) argI kwargs =
      (if pyStartsWith arg "--" then
        Option.casesOn cmd.params (ExecOutcome.exn "KeyError") (fun ps =>
          Option.casesOn (lookupP ps arg) (ExecOutcome.printed "Unknown Parameter") (fun td =>
            match rest with
            | [] => ExecOutcome.invoked (insertKV kwargs (pyDrop arg 2) .vnone)
            | v :: rest2 =>
              Except.casesOn (decode td.1 v) (fun e => ExecOutcome.exn e) (fun w =>
                if w = Value.vnone then
                  execLoop cmd (v :: rest2) argI (insertKV kwargs (pyDrop arg 2) w)
                else
                  execLoop cmd rest2 argI (insertKV kwargs (pyDrop arg 2) w))))
      else if pyStartsWith arg "-" then
        if kwargs.any (fun p => p.1 = pyDrop arg 1) then
          execLoop cmd rest argI (insertKV kwargs (pyDrop arg 1) (.vbool true))
        else if arg = "-?" then .printed cmd.info
        else .printed "Unknown Option"
      else
        Option.casesOn cmd.args (ExecOutcome.exn "KeyError") (fun args =>
          if h : argI < args.length then
            Except.casesOn (decode (args.get ⟨argI, h⟩).2 arg) (fun e => ExecOutcome.exn e)
              (fun w =>
                execLoop cmd rest (argI + 1)
                  (insertKV kwargs (stripBrk (args.get ⟨argI, h⟩).1) w))
          else ExecOutcome.printed "Too many arguments provided.")) := by
  cases rest <;> rfl

/-!
The claims.
-/

/-- C1: dispatching the token sequence `cmd --x 5 -flag pos1` against the
command registered from signature `(p, flag=True, x: int = None)` — spec
`Named(x: int), Flag(flag), Positional(p)` — invokes the handler exactly
once with keyword arguments `flag=True, x=5 (decoded to int), p="pos1"`,
and emits no diagnostic (the outcome is `invoked`, not `printed`/`exn`). -/
theorem claim1_dispatch : exec cmdMixed ["cmd", "--x", "5", "-flag", "pos1"] =
    .invoked [("flag", .vbool true), ("x", .vint 5), ("p", .vstr "pos1")] := by
  decide

/-- C2: classification maps every parameter with no default to a
positional entry, every parameter whose default is `True` to a flag
entry, and every other defaulted parameter to a named entry, each group
in declaration order; in particular the callable `(a, b=True, c="x")`
classifies to `Positional(a), Flag(b), Named(c, default="x")`. -/
theorem claim2_classification :
    (∀ ps : List PyParam, classify ps = (posSpecs ps, flagSpecs ps, namedSpecs ps)) ∧
    classify psABC = ([("[a]", .untyped)], ["-b"], [("--c", .untyped, .vstr "x")]) := by
  constructor
  · intro ps
    simpa using classify_foldl ps ([], [], [])
  · decide

/-- C3 counterexample: registering a second command whose alias list
reuses the alias `x` of an earlier registration does NOT fail — `register`
is total, no `AliasConflict` error exists in the code — and the alias
binding is silently rebound: after both registrations the alias `x`
resolves to the SECOND command record, not the first, while the first
record itself stays reachable under its canonical name. -/
theorem claim3_counterexample :
    resolve regShared "x" = .found (mkData "b2" none ["x"] []).2 ∧
    resolve regShared "x" ≠ .found (mkData "a1" none ["x"] psOnePos).2 ∧
    resolve regShared "a1" = .found (mkData "a1" none ["x"] psOnePos).2 := by
  refine ⟨by decide, ?_, by decide⟩
  decide

/-- C3 amended: registration performs no alias-conflict check.  When a
second registration reuses an alias bound by an earlier one (canonical
names distinct, neither equal to the lower-cased alias), the second
registration succeeds, the alias thereafter resolves to the second
command record, and the first record remains resolvable under its
canonical name. -/
theorem claim3_amended (r : List (String × Entry)) (name1 name2 : String)
    (doc1 doc2 : Option String) (a : String) (ps1 ps2 : List PyParam)
    (n1 n2 : String) (d1 d2 : CommandData)
    (h1 : mkData name1 doc1 [a] ps1 = (n1, d1))
    (h2 : mkData name2 doc2 [a] ps2 = (n2, d2))
    (hnn : n1 ≠ n2) (ha1 : pyLower a ≠ n1) (ha2 : pyLower a ≠ n2) :
    resolve (register (register r name1 doc1 [a] ps1) name2 doc2 [a] ps2) a =
      .found d2 ∧
    ∀ tok, pyLower tok = n1 →
      resolve (register (register r name1 doc1 [a] ps1) name2 doc2 [a] ps2) tok =
        .found d1 := by
  constructor
  · simp [register, resolve, rLookup, h1, h2, ha2]
  · intro tok htok
    simp [register, resolve, rLookup, h1, h2, htok, ha1, Ne.symm hnn]

theorem claim3_amended_witness :
    resolve regShared "x" = .found (mkData "b2" none ["x"] []).2 ∧
    resolve regShared "a1" = .found (mkData "a1" none ["x"] psOnePos).2 := by
  have h := claim3_amended [] "a1" "b2" none none "x" psOnePos []
    (mkData "a1" none ["x"] psOnePos).1 (mkData "b2" none ["x"] []).1
    (mkData "a1" none ["x"] psOnePos).2 (mkData "b2" none ["x"] []).2
    rfl rfl (by decide) (by decide) (by decide)
  exact ⟨h.1, h.2 "a1" (by decide)⟩

/-- C4 counterexample: decoding the value `abc` through the union type
`Union[int, str]` does not try each member until one succeeds: the code
applies only the first member `int`, whose failure propagates as an
exception (`ValueError`), even though the later member `str` (and the
claimed raw-string fallback, computed here by the spec-modelled
`decodeSpec`) would have produced `"abc"`. -/
theorem claim4_counterexample :
    decode (.union [.int, .str]) "abc" = .error "ValueError" ∧
    decodeSpec (.union [.int, .str]) "abc" = .vstr "abc" ∧
    decode (.union [.int, .str]) "abc" ≠ .ok (.vstr "abc") := by
  refine ⟨rfl, rfl, by decide⟩

/-- C4 amended: decoding through a union applies only the FIRST declared
member; the remaining members are never consulted (the result is the same
whatever they are), and when the first member fails the error propagates
— there is no raw-string fallback. -/
theorem claim4_amended (t : Ty) (rest : List Ty) (value : String) :
    decode (.union (t :: rest)) value = decode (.union [t]) value ∧
    decode (.union (t :: rest)) value =
      (match applyTy t value with
       | some v => .ok v
       | none => .error "ValueError") ∧
    (applyTy t value = none →
      decode (.union (t :: rest)) value = .error "ValueError") := by
  refine ⟨rfl, rfl, fun h => ?_⟩
  simp [decode, h]

theorem claim4_amended_witness :
    applyTy .int "abc" = none ∧
    decode (.union [.int, .str]) "abc" = .error "ValueError" :=
  ⟨rfl, (claim4_amended .int [.str] "abc").2.2 rfl⟩

/-- C5 amended: a plain (non-dash) token arriving when all positional
slots are filled yields the `Too many arguments provided.` diagnostic and
the handler is not invoked — PROVIDED the spec has at least one
positional parameter, so that the `args` key exists (first conjunct, at
any loop state with `argI` at or past the end of the positional list);
in particular `cmd a b c` against one positional fails this way (second
conjunct).  For a spec with zero positionals the claim fails: see the
counterexample. -/
theorem claim5_amended :
    (∀ (cmd : CommandData) (arg : String) (rest : List String) (argI : Nat)
        (kwargs : List (String × Value)) (l : List (String × TypeRef)),
      pyStartsWith arg "--" = false → pyStartsWith arg "-" = false →
      cmd.args = some l → l.length ≤ argI →
      execLoop cmd (arg :: rest) argI kwargs =
        .printed "Too many arguments provided.") ∧
    exec cmdOnePos ["cmd", "a", "b", "c"] =
      .printed "Too many arguments provided." := by
  constructor
  · intro cmd arg rest argI kwargs l h2 h1 hargs hfull
    rw [execLoop_cons]
    simp [h2, h1, hargs, Nat.not_lt.mpr hfull]
  · decide

theorem claim5_witness :
    execLoop cmdOnePos ["b", "c"] 1 [("p", .vstr "a")] =
      .printed "Too many arguments provided." :=
  claim5_amended.1 cmdOnePos "b" ["c"] 1 [("p", .vstr "a")] [("[p]", .untyped)]
    (by decide) (by decide) (by decide) (by decide)

/-- C5 counterexample: against a command with ZERO positional parameters
the `data` dict has no `args` key, so a plain token does not produce the
`TooManyArguments` diagnostic: `cmd["args"]` raises `KeyError`, which
escapes `exec` and is rendered by the REPL as a generic error (the
handler is still not invoked). -/
theorem claim5_counterexample :
    exec cmdNoPos ["cmd", "a"] = .exn "KeyError" ∧
    exec cmdNoPos ["cmd", "a"] ≠ .printed "Too many arguments provided." := by
  refine ⟨by decide, by decide⟩

/-- C6: for every command none of whose flag names is `?` (Python
parameter names never are), dispatching with the single argument token
`-?` prints exactly the stored info text and never invokes the handler:
the parse aborts at that token. -/
theorem claim6_help (cmd : CommandData) (cname : String)
    (h : ∀ o ∈ cmd.options.getD [], pyDrop o 1 ≠ "?") :
    exec cmd [cname, "-?"] = .printed cmd.info := by
  have hq : (List.foldl (fun kw o => insertKV kw (pyDrop o 1) (Value.vbool false)) []
      (cmd.options.getD [])).any (fun p => p.1 = "?") = false :=
    optInit_any_false (cmd.options.getD []) "?" h [] rfl
  simp only [exec, List.drop_succ_cons, List.drop_zero]
  rw [execLoop_cons]
  simp [show pyStartsWith "-?" "--" = false from rfl,
    show pyStartsWith "-?" "-" = true from rfl,
    show pyDrop "-?" 1 = "?" from rfl, hq]

theorem claim6_witness : exec cmdMixed ["cmd", "-?"] = .printed cmdMixed.info :=
  claim6_help cmdMixed "cmd" (by decide)

/-- C7: when a `--name` token that matches a declared named parameter is
the LAST token of the input, the parse does not fail: the parameter is
recorded as `None` and the loop exits, so the handler is invoked (with
that parameter bound to `None`). -/
theorem claim7_trailing_named (cmd : CommandData) (tok : String) (argI : Nat)
    (kwargs : List (String × Value)) (ps : List (String × TypeRef × Value))
    (tpe : TypeRef) (dflt : Value)
    (hs : pyStartsWith tok "--" = true)
    (hp : cmd.params = some ps) (hl : lookupP ps tok = some (tpe, dflt)) :
    execLoop cmd [tok] argI kwargs =
      .invoked (insertKV kwargs (pyDrop tok 2) .vnone) := by
  rw [execLoop_cons]
  simp [hs, hp, hl]

theorem claim7_witness :
    execLoop cmdMixed ["--x"] 0 [("flag", .vbool false)] =
      .invoked [("flag", .vbool false), ("x", .vnone)] := by
  have h := claim7_trailing_named cmdMixed "--x" 0 [("flag", .vbool false)]
    [("--x", .concrete .int, .vnone)] (.concrete .int) .vnone
    (by decide) (by decide) (by decide)
  rw [h]; decide

/-- C8 counterexample: for the command registered from `(p, f=True, n=1)`
the usage line built at registration is `c [p] -f --n` — positional
placeholders first, then the FLAG token, then the named-parameter token —
not the claimed positional-then-named-then-flag order `c [p] --n -f`. -/
theorem claim8_counterexample :
    usageOf "c" cmdPFN.args cmdPFN.options cmdPFN.params = "\nUsage: c [p] -f --n" ∧
    "\nUsage: c [p] -f --n" ≠ "\nUsage: c [p] --n -f" := by
  refine ⟨by decide, by decide⟩

/-- C8 amended: the usage line lists, after the command name, all
positional placeholders first, then all flag `-name` tokens, then all
named-parameter `--name` tokens, each group in declaration order. -/
theorem claim8_amended (name : String) (args : List (String × TypeRef))
    (options : List String) (params : List (String × TypeRef × Value)) :
    usageOf name (some args) (some options) (some params) =
      "\nUsage: " ++ name
        ++ joinStr (args.map (fun j => " " ++ j.1))
        ++ joinStr (options.map (fun j => " " ++ j))
        ++ joinStr (params.map (fun j => " " ++ j.1)) := by
  show params.foldl (fun acc j => acc ++ " " ++ j.1)
      (options.foldl (fun acc j => acc ++ " " ++ j)
        (args.foldl (fun acc j => acc ++ " " ++ j.1) ("\nUsage: " ++ name))) = _
  rw [foldl_token_join, foldl_token_join, foldl_token_join]

/-- C9: registering a command with canonical name `n` (the normalised
first component of `mkData`) and a single alias `a` whose lower-casing
differs from `n` makes the alias resolve, through exactly one
indirection, to the very same record that any spelling of the canonical
name resolves to directly. -/
theorem claim9_alias (r : List (String × Entry)) (name : String)
    (doc : Option String) (a : String) (ps : List PyParam)
    (n : String) (d : CommandData)
    (hm : mkData name doc [a] ps = (n, d)) (hne : pyLower a ≠ n) :
    resolve (register r name doc [a] ps) a = .found d ∧
    ∀ tok, pyLower tok = n →
      resolve (register r name doc [a] ps) tok = .found d := by
  constructor
  · simp [register, resolve, rLookup, hm, hne]
  · intro tok htok
    simp [register, resolve, rLookup, hm, htok, hne]

theorem claim9_witness :
    resolve (register [] "A1" none ["X"] psOnePos) "X" =
      .found (mkData "A1" none ["X"] psOnePos).2 :=
  (claim9_alias [] "A1" none "X" psOnePos
    (mkData "A1" none ["X"] psOnePos).1 (mkData "A1" none ["X"] psOnePos).2
    rfl (by decide)).1

/-- C10: during dispatch a single-dash token is accepted, and its target
set to boolean `True`, exactly when the text after the dash is a key of
the CURRENT assembled argument map — whether that key came from a flag, a
named parameter assigned earlier, or a positional already filled, whose
value is then overwritten with `True`; `Unknown Option` is printed only
when the suffix matches no key of that map and the token is not exactly
`-?`. -/
theorem claim10_dash (cmd : CommandData) (arg : String) (rest : List String)
    (argI : Nat) (kwargs : List (String × Value))
    (h2 : pyStartsWith arg "--" = false) (h1 : pyStartsWith arg "-" = true) :
    (kwargs.any (fun p => p.1 = pyDrop arg 1) = true →
      execLoop cmd (arg :: rest) argI kwargs =
        execLoop cmd rest argI (insertKV kwargs (pyDrop arg 1) (.vbool true))) ∧
    (kwargs.any (fun p => p.1 = pyDrop arg 1) = false → arg ≠ "-?" →
      execLoop cmd (arg :: rest) argI kwargs = .printed "Unknown Option") := by
  constructor
  · intro hin
    rw [execLoop_cons]
    simp [h2, h1, hin]
  · intro hout hq
    rw [execLoop_cons]
    simp [h2, h1, hout, hq]

theorem claim10_witness :
    execLoop cmdMixed ["-x"] 1 [("flag", .vbool false), ("x", .vint 5)] =
      .invoked [("flag", .vbool false), ("x", .vbool true)] := by
  have h := (claim10_dash cmdMixed "-x" [] 1
    [("flag", .vbool false), ("x", .vint 5)] (by decide) (by decide)).1 (by decide)
  rw [h]; decide

end WizardCLI
